import Mathlib

/-!
# MediLink: schema, routing and pharmacy-locator model

A shallow embedding of

* `backend/models/Appointment.js` and `backend/models/Record.js`
  (the two Mongoose schemas, with the validation, default and index
  semantics that Mongoose attaches to the declared options),
* `frontend/src/routes/ProtectedRoutes.js` (the React Router route table,
  with the branch flattening, ranking and matching of `matchRoutes`),
* `frontend/src/pages/Patient/PharmacyLocator.jsx` (`getDistance`, the
  map-and-sort of the Overpass elements and the search filter).

JavaScript numbers are idealised as real numbers where trigonometry is
involved; the list operations are polymorphic in the number type so that
they can be evaluated on integer inputs.
-/

namespace Medilink

/-! ## Mongoose schema types -/

/-- An ObjectId, carried as an opaque identifier. -/
abbrev ObjectId := Nat

/-- A JavaScript `Date`, as milliseconds since the epoch. -/
abbrev JsDate := Int

/-- A `Schema.Types.Mixed` payload, carried opaquely in serialised form. -/
abbrev Mixed := String

/-- The options a schema path can declare: `required`, `enum`, `default`.
A path declared by its bare type (`notes: String`) has none of them. -/
structure SchemaTypeOptions (α : Type) where
  required : Bool
  enum : Option (List α)
  default : Option α

/-- A path declared with no options. -/
def SchemaTypeOptions.bare {α : Type} : SchemaTypeOptions α :=
  ⟨false, none, none⟩

/-- Defaults are applied to a path whose value is `undefined`. -/
def applyDefault {α : Type} (o : SchemaTypeOptions α) (v : Option α) : Option α :=
  match v with
  | some x => some x
  | none => o.default

/-- Mongoose `SchemaString.checkRequired`: a string satisfies `required` when it has
positive length. -/
def SchemaString.checkRequired (v : String) : Bool :=
  !v.data.isEmpty

/-- Mongoose `SchemaType.checkRequired` for ObjectId, Boolean and Date paths: any
value that is present satisfies `required`. -/
def SchemaType.checkRequired {α : Type} (_ : α) : Bool := true

/-- The `required` validator of a path: it is the only validator run on an
`undefined` value, and it fails there. -/
def requiredValidator {α : Type} (check : α → Bool) (o : SchemaTypeOptions α)
    (v : Option α) : Bool :=
  if o.required then
    match v with
    | some x => check x
    | none => false
  else true

/-- The `enum` validator of a path: skipped on `undefined`, otherwise the
value has to be one of the declared values. -/
def enumValidator {α : Type} [DecidableEq α] (o : SchemaTypeOptions α)
    (v : Option α) : Bool :=
  match o.enum, v with
  | some vals, some x => decide (x ∈ vals)
  | _, _ => true

/-- All validators of one path. -/
def doValidate {α : Type} [DecidableEq α] (check : α → Bool)
    (o : SchemaTypeOptions α) (v : Option α) : Bool :=
  requiredValidator check o v && enumValidator o v

/-- What a candidate supplies for a path that is not required: nothing
(`undefined`), an explicit `null`, or a value. -/
inductive Supplied (α : Type) where
  | undefined
  | null
  | value (v : α)
  deriving DecidableEq

/-- Defaults on a path that may hold `null`: only `undefined` is replaced by
the default, an explicit `null` is kept. -/
def applyDefaultSupplied {α : Type} (o : SchemaTypeOptions α) (v : Supplied α) : Supplied α :=
  match v with
  | .undefined =>
    match applyDefault o none with
    | some x => .value x
    | none => .undefined
  | .null => .null
  | .value x => .value x

/-- All validators of a path that may hold `null`: `null` fails `required`
and passes every other validator, the `enum` validator included; `undefined`
and values are validated as on any path. -/
def doValidateSupplied {α : Type} [DecidableEq α] (check : α → Bool)
    (o : SchemaTypeOptions α) (v : Supplied α) : Bool :=
  match v with
  | .undefined => doValidate check o none
  | .null => !o.required
  | .value x => doValidate check o (some x)

/-- The paths of a validation error: `name` is reported when `ok` is false. -/
def pathError (name : String) (ok : Bool) : List String :=
  if ok then [] else [name]

/-- One declared index: its key (path, direction) and whether it is unique. -/
structure IndexSpec where
  key : List (String × Int)
  unique : Bool
  deriving DecidableEq

/-- A value read from a document by path name, for index keys. -/
inductive KeyValue where
  | undefined
  | null
  | oid (v : ObjectId)
  | str (v : String)
  | bool (v : Bool)
  | date (v : JsDate)
  deriving DecidableEq

/-- The index key value of a path that may hold `null`. -/
def Supplied.toKey {α : Type} (f : α → KeyValue) (v : Supplied α) : KeyValue :=
  match v with
  | .undefined => .undefined
  | .null => .null
  | .value x => f x

/-- A document as stored in a collection: its `_id`, the schema paths and the
two fields added by `{ timestamps: true }`. -/
structure Stored (D : Type) where
  id : ObjectId
  doc : D
  createdAt : JsDate
  updatedAt : JsDate
  deriving DecidableEq

/-- Why a `save` is rejected. -/
inductive SaveError where
  | validation (paths : List String)
  | duplicateKey (index : IndexSpec)
  deriving DecidableEq

/-- The key of a document under an index. -/
def indexKey {D : Type} (get : Stored D → String → KeyValue) (ix : IndexSpec)
    (d : Stored D) : List KeyValue :=
  ix.key.map (fun k => get d k.1)

/-- The first unique index that a new document would violate, if any. -/
def duplicateKeyIn {D : Type} (get : Stored D → String → KeyValue)
    (indexes : List IndexSpec) (coll : List (Stored D)) (d : Stored D) :
    Option IndexSpec :=
  indexes.find? (fun ix =>
    ix.unique && coll.any (fun e => decide (indexKey get ix e = indexKey get ix d)))

/-- A fresh `_id`: larger than every `_id` in the collection. -/
def freshId {D : Type} (coll : List (Stored D)) : ObjectId :=
  (coll.map (fun e => e.id)).foldr max 0 + 1

/-! ## `models/Appointment.js` -/

/-- A candidate Appointment document. On the required paths `none` is a path
without a value; the two paths that are not required tell a path left out
from an explicit `null`, which the schema stores as it is. -/
structure AppointmentDoc where
  patientId : Option ObjectId
  doctorId : Option ObjectId
  date : Option String
  time : Option String
  status : Supplied String
  notes : Supplied String
  deriving DecidableEq

namespace appointmentSchema

def patientId : SchemaTypeOptions ObjectId := ⟨true, none, none⟩
def doctorId : SchemaTypeOptions ObjectId := ⟨true, none, none⟩
def date : SchemaTypeOptions String := ⟨true, none, none⟩
def time : SchemaTypeOptions String := ⟨true, none, none⟩
def status : SchemaTypeOptions String :=
  ⟨false, some ["confirmed", "completed", "cancelled"], some "confirmed"⟩
def notes : SchemaTypeOptions String := ⟨false, none, some ""⟩

/-- The two `appointmentSchema.index(...)` calls; neither passes
`{ unique: true }`. -/
def indexes : List IndexSpec :=
  [⟨[("patientId", 1), ("date", -1)], false⟩,
   ⟨[("doctorId", 1), ("date", -1)], false⟩]

end appointmentSchema

namespace Appointment

/-- The document built by `new Appointment(input)`: defaults filled in. -/
def applyDefaults (d : AppointmentDoc) : AppointmentDoc :=
  { patientId := applyDefault appointmentSchema.patientId d.patientId
    doctorId := applyDefault appointmentSchema.doctorId d.doctorId
    date := applyDefault appointmentSchema.date d.date
    time := applyDefault appointmentSchema.time d.time
    status := applyDefaultSupplied appointmentSchema.status d.status
    notes := applyDefaultSupplied appointmentSchema.notes d.notes }

/-- The paths that fail validation, in schema order. -/
def validationErrors (d : AppointmentDoc) : List String :=
  pathError "patientId"
      (doValidate SchemaType.checkRequired appointmentSchema.patientId d.patientId) ++
  pathError "doctorId"
      (doValidate SchemaType.checkRequired appointmentSchema.doctorId d.doctorId) ++
  pathError "date" (doValidate SchemaString.checkRequired appointmentSchema.date d.date) ++
  pathError "time" (doValidate SchemaString.checkRequired appointmentSchema.time d.time) ++
  pathError "status"
      (doValidateSupplied SchemaString.checkRequired appointmentSchema.status d.status) ++
  pathError "notes"
      (doValidateSupplied SchemaString.checkRequired appointmentSchema.notes d.notes)

/-- Models `new Appointment(input).validate()`: the document with its defaults, or
the failing paths. -/
def validate (input : AppointmentDoc) : Except (List String) AppointmentDoc :=
  let d := applyDefaults input
  match validationErrors d with
  | [] => .ok d
  | errs => .error errs

/-- Reads a path of a stored appointment. -/
def get (d : Stored AppointmentDoc) (path : String) : KeyValue :=
  if path = "patientId" then (d.doc.patientId.map KeyValue.oid).getD .undefined
  else if path = "doctorId" then (d.doc.doctorId.map KeyValue.oid).getD .undefined
  else if path = "date" then (d.doc.date.map KeyValue.str).getD .undefined
  else if path = "time" then (d.doc.time.map KeyValue.str).getD .undefined
  else if path = "status" then d.doc.status.toKey KeyValue.str
  else if path = "notes" then d.doc.notes.toKey KeyValue.str
  else if path = "_id" then .oid d.id
  else if path = "createdAt" then .date d.createdAt
  else if path = "updatedAt" then .date d.updatedAt
  else .undefined

/-- Models `Appointment.create(input)` at time `now`: validate, then insert unless a
unique index rejects the document. -/
def create (now : JsDate) (coll : List (Stored AppointmentDoc)) (input : AppointmentDoc) :
    Except SaveError (List (Stored AppointmentDoc)) :=
  match validate input with
  | .error paths => .error (.validation paths)
  | .ok d =>
    let s : Stored AppointmentDoc := ⟨freshId coll, d, now, now⟩
    match duplicateKeyIn get appointmentSchema.indexes coll s with
    | some ix => .error (.duplicateKey ix)
    | none => .ok (coll ++ [s])

end Appointment

/-! ## `models/Record.js` -/

/-- A candidate Record document; `none` is a path left out. -/
structure RecordDoc where
  patientId : Option ObjectId
  type : Option String
  title : Option String
  fileUrl : Option String
  notes : Option String
  data : Option Mixed
  uploadedBy : Option ObjectId
  lastUpdatedBy : Option ObjectId
  isDeleted : Option Bool
  deletedBy : Option ObjectId
  deletedAt : Option JsDate
  deriving DecidableEq

namespace RecordSchema

def patientId : SchemaTypeOptions ObjectId := ⟨true, none, none⟩
def type : SchemaTypeOptions String := ⟨true, none, none⟩
def title : SchemaTypeOptions String := ⟨true, none, none⟩
def fileUrl : SchemaTypeOptions String := ⟨true, none, none⟩
def notes : SchemaTypeOptions String := SchemaTypeOptions.bare
def data : SchemaTypeOptions Mixed := SchemaTypeOptions.bare
def uploadedBy : SchemaTypeOptions ObjectId := ⟨true, none, none⟩
def lastUpdatedBy : SchemaTypeOptions ObjectId := ⟨false, none, none⟩
def isDeleted : SchemaTypeOptions Bool := ⟨false, none, some false⟩
def deletedBy : SchemaTypeOptions ObjectId := ⟨false, none, none⟩
def deletedAt : SchemaTypeOptions JsDate := ⟨false, none, none⟩

/-- The single `RecordSchema.index(...)` call, not unique. -/
def indexes : List IndexSpec :=
  [⟨[("patientId", 1), ("createdAt", -1)], false⟩]

end RecordSchema

/-- The conditions of a query on the Record model: an equality condition per
path, `none` where the query leaves the path unconstrained. -/
structure RecordFilter where
  id : Option ObjectId
  patientId : Option ObjectId
  type : Option String
  title : Option String
  fileUrl : Option String
  notes : Option String
  data : Option Mixed
  uploadedBy : Option ObjectId
  lastUpdatedBy : Option ObjectId
  isDeleted : Option Bool
  deletedBy : Option ObjectId
  deletedAt : Option JsDate
  deriving DecidableEq

/-- The query middleware (`RecordSchema.pre('find', ...)`) registered by
`models/Record.js`: the file registers none. -/
def RecordSchema.preFind : List (RecordFilter → RecordFilter) := []

/-- An equality condition on one path: absent, or met by the stored value. -/
def condHolds {α : Type} [DecidableEq α] (c : Option α) (v : Option α) : Bool :=
  match c with
  | none => true
  | some x => decide (v = some x)

/-- Whether a stored record meets every condition of a filter. -/
def RecordFilter.matches (f : RecordFilter) (d : Stored RecordDoc) : Bool :=
  condHolds f.id (some d.id) &&
  condHolds f.patientId d.doc.patientId &&
  condHolds f.type d.doc.type &&
  condHolds f.title d.doc.title &&
  condHolds f.fileUrl d.doc.fileUrl &&
  condHolds f.notes d.doc.notes &&
  condHolds f.data d.doc.data &&
  condHolds f.uploadedBy d.doc.uploadedBy &&
  condHolds f.lastUpdatedBy d.doc.lastUpdatedBy &&
  condHolds f.isDeleted d.doc.isDeleted &&
  condHolds f.deletedBy d.doc.deletedBy &&
  condHolds f.deletedAt d.doc.deletedAt

/-- The filter with no condition, `{}`. -/
def RecordFilter.empty : RecordFilter :=
  ⟨none, none, none, none, none, none, none, none, none, none, none, none⟩

namespace Record

/-- The document built by `new Record(input)`: defaults filled in. -/
def applyDefaults (d : RecordDoc) : RecordDoc :=
  { patientId := applyDefault RecordSchema.patientId d.patientId
    type := applyDefault RecordSchema.type d.type
    title := applyDefault RecordSchema.title d.title
    fileUrl := applyDefault RecordSchema.fileUrl d.fileUrl
    notes := applyDefault RecordSchema.notes d.notes
    data := applyDefault RecordSchema.data d.data
    uploadedBy := applyDefault RecordSchema.uploadedBy d.uploadedBy
    lastUpdatedBy := applyDefault RecordSchema.lastUpdatedBy d.lastUpdatedBy
    isDeleted := applyDefault RecordSchema.isDeleted d.isDeleted
    deletedBy := applyDefault RecordSchema.deletedBy d.deletedBy
    deletedAt := applyDefault RecordSchema.deletedAt d.deletedAt }

/-- The paths that fail validation, in schema order. -/
def validationErrors (d : RecordDoc) : List String :=
  pathError "patientId"
      (doValidate SchemaType.checkRequired RecordSchema.patientId d.patientId) ++
  pathError "type" (doValidate SchemaString.checkRequired RecordSchema.type d.type) ++
  pathError "title" (doValidate SchemaString.checkRequired RecordSchema.title d.title) ++
  pathError "fileUrl" (doValidate SchemaString.checkRequired RecordSchema.fileUrl d.fileUrl) ++
  pathError "notes" (doValidate SchemaString.checkRequired RecordSchema.notes d.notes) ++
  pathError "data" (doValidate SchemaType.checkRequired RecordSchema.data d.data) ++
  pathError "uploadedBy"
      (doValidate SchemaType.checkRequired RecordSchema.uploadedBy d.uploadedBy) ++
  pathError "lastUpdatedBy"
      (doValidate SchemaType.checkRequired RecordSchema.lastUpdatedBy d.lastUpdatedBy) ++
  pathError "isDeleted"
      (doValidate SchemaType.checkRequired RecordSchema.isDeleted d.isDeleted) ++
  pathError "deletedBy"
      (doValidate SchemaType.checkRequired RecordSchema.deletedBy d.deletedBy) ++
  pathError "deletedAt"
      (doValidate SchemaType.checkRequired RecordSchema.deletedAt d.deletedAt)

/-- Models `new Record(input).validate()`: the document with its defaults, or the
failing paths. -/
def validate (input : RecordDoc) : Except (List String) RecordDoc :=
  let d := applyDefaults input
  match validationErrors d with
  | [] => .ok d
  | errs => .error errs

/-- Reads a path of a stored record. -/
def get (d : Stored RecordDoc) (path : String) : KeyValue :=
  if path = "patientId" then (d.doc.patientId.map KeyValue.oid).getD .undefined
  else if path = "type" then (d.doc.type.map KeyValue.str).getD .undefined
  else if path = "title" then (d.doc.title.map KeyValue.str).getD .undefined
  else if path = "fileUrl" then (d.doc.fileUrl.map KeyValue.str).getD .undefined
  else if path = "notes" then (d.doc.notes.map KeyValue.str).getD .undefined
  else if path = "data" then (d.doc.data.map KeyValue.str).getD .undefined
  else if path = "uploadedBy" then (d.doc.uploadedBy.map KeyValue.oid).getD .undefined
  else if path = "lastUpdatedBy" then (d.doc.lastUpdatedBy.map KeyValue.oid).getD .undefined
  else if path = "isDeleted" then (d.doc.isDeleted.map KeyValue.bool).getD .undefined
  else if path = "deletedBy" then (d.doc.deletedBy.map KeyValue.oid).getD .undefined
  else if path = "deletedAt" then (d.doc.deletedAt.map KeyValue.date).getD .undefined
  else if path = "_id" then .oid d.id
  else if path = "createdAt" then .date d.createdAt
  else if path = "updatedAt" then .date d.updatedAt
  else .undefined

/-- Models `Record.create(input)` at time `now`: validate, then insert unless a
unique index rejects the document. -/
def create (now : JsDate) (coll : List (Stored RecordDoc)) (input : RecordDoc) :
    Except SaveError (List (Stored RecordDoc)) :=
  match validate input with
  | .error paths => .error (.validation paths)
  | .ok d =>
    let s : Stored RecordDoc := ⟨freshId coll, d, now, now⟩
    match duplicateKeyIn get RecordSchema.indexes coll s with
    | some ix => .error (.duplicateKey ix)
    | none => .ok (coll ++ [s])

/-- Models `Record.find(filter)`: the registered query middleware runs on the
filter, then the stored documents that match it are returned in order. -/
def find (coll : List (Stored RecordDoc)) (filter : RecordFilter) : List (Stored RecordDoc) :=
  let f := RecordSchema.preFind.foldl (fun acc hook => hook acc) filter
  coll.filter (fun d => f.matches d)

end Record

/-! ## `Array.prototype.sort` -/

/-- Inserts `a` in front of the first element it does not have to follow:
`cmp a b > 0` means that `a` goes after `b`. -/
def orderedInsert {α N : Type} [Zero N] [LT N] [DecidableRel (fun x y : N => x < y)]
    (cmp : α → α → N) (a : α) : List α → List α
  | [] => [a]
  | b :: l => if 0 < cmp a b then b :: orderedInsert cmp a l else a :: b :: l

/-- Models `Array.prototype.sort(cmp)` as a stable insertion sort: elements that
compare as equal keep their order, as ECMAScript requires of `sort`. -/
def jsSort {α N : Type} [Zero N] [LT N] [DecidableRel (fun x y : N => x < y)]
    (cmp : α → α → N) : List α → List α
  | [] => []
  | a :: l => orderedInsert cmp a (jsSort cmp l)

/-! ## `routes/ProtectedRoutes.js` -/

/-- The roles the route table names (`Roles.DOCTOR`, `Roles.USER` of
`constants/AccessConstants`). -/
inductive Roles where
  | DOCTOR
  | USER
  deriving DecidableEq

/-- What the `element` of a `<Route>` renders: a page component, or the
`PrivateRoute` guard with its `allowedRoles`. -/
inductive RouteElement where
  | page (component : String)
  | PrivateRoute (allowedRoles : List Roles)
  deriving DecidableEq

/-- A `<Route>`: its `path` (absent on a layout route), its `element` and
its child routes. No route of the table is an index route. -/
inductive RouteObject where
  | route (path : Option String) (element : RouteElement) (children : List RouteObject)

/-- One route on the way from the root to a branch leaf. -/
structure RouteMeta where
  relativePath : List Char
  childrenIndex : Nat
  element : RouteElement
  deriving DecidableEq

/-- A flattened branch: full path, score, and the routes from root to leaf. -/
structure RouteBranch where
  path : List Char
  score : Int
  routesMeta : List RouteMeta
  deriving DecidableEq

/-- Models `path.split("/")`. -/
def splitSlash : List Char → List (List Char)
  | [] => [[]]
  | c :: cs =>
    match splitSlash cs with
    | [] => [[]]
    | seg :: rest => if c = '/' then [] :: seg :: rest else (c :: seg) :: rest

/-- Models `.replace(/\/\/+/g, "/")`: runs of slashes become one slash. -/
def collapseSlashes : List Char → List Char
  | [] => []
  | [c] => [c]
  | c :: d :: cs => if c = '/' ∧ d = '/' then collapseSlashes (d :: cs)
      else c :: collapseSlashes (d :: cs)

/-- React Router `joinPaths([a, b])`: join with a slash, then collapse repeated slashes. -/
def joinPaths (a b : List Char) : List Char :=
  collapseSlashes (a ++ '/' :: b)

/-- The character class `[\w-]`. -/
def isWordChar (c : Char) : Bool :=
  c.isAlphanum || c = '_' || c = '-'

/-- React Router `paramRe = /^:[\w-]+$/`: a dynamic segment. -/
def isParam (seg : List Char) : Bool :=
  match seg with
  | ':' :: c :: cs => (c :: cs).all isWordChar
  | _ => false

/-- A splat segment, `*`. -/
def isSplat (seg : List Char) : Bool := decide (seg = ['*'])

/-- React Router `computeScore(path, index)`: the segment count, a penalty of 2 for a
splat, 2 for an index route, then 3 per dynamic segment, 1 per empty segment
and 10 per static segment. -/
def computeScore (path : List Char) (index : Bool) : Int :=
  let segments := splitSlash path
  let initialScore : Int :=
    (segments.length : Int) + (if segments.any isSplat then -2 else 0) + (if index then 2 else 0)
  (segments.filter (fun s => !isSplat s)).foldl
    (fun score segment =>
      score + (if isParam segment then 3 else if segment.isEmpty then 1 else 10))
    initialScore

mutual
/-- React Router `flattenRoute`: the branches of the children first, then the
branch of the route itself unless it has no path. An absolute child path is
taken relative to the parent path, which it has to start with. -/
def flattenRoute (parentsMeta : List RouteMeta) (parentPath : List Char) (index : Nat) :
    RouteObject → List RouteBranch
  | .route path element children =>
    let rel0 := (path.getD "").data
    let rel := if rel0.head? = some '/' then rel0.drop parentPath.length else rel0
    let p := joinPaths parentPath rel
    let routesMeta := parentsMeta ++ [⟨rel, index, element⟩]
    flattenRoutesFrom routesMeta p 0 children ++
      (match path with
       | none => []
       | some _ => [⟨p, computeScore p false, routesMeta⟩])
/-- Models `routes.forEach(flattenRoute)`, carrying the child index. -/
def flattenRoutesFrom (parentsMeta : List RouteMeta) (parentPath : List Char) (index : Nat) :
    List RouteObject → List RouteBranch
  | [] => []
  | r :: rs =>
    flattenRoute parentsMeta parentPath index r ++
      flattenRoutesFrom parentsMeta parentPath (index + 1) rs
end


/-- React Router `flattenRoutes(routes)`. -/
def flattenRoutes (routes : List RouteObject) : List RouteBranch :=
  flattenRoutesFrom [] [] 0 routes

/-- React Router `compareIndexes`: siblings are ordered by their last child index, other
branches are left in place. -/
def compareIndexes (a b : List Nat) : Int :=
  if a.length = b.length ∧ a.dropLast = b.dropLast then
    ((a.getLastD 0 : Nat) : Int) - ((b.getLastD 0 : Nat) : Int)
  else 0

/-- React Router `rankRouteBranches`: higher score first, ties by `compareIndexes`; the
sort is stable, so branches that compare as equal keep their declaration
order. -/
def rankRouteBranches (branches : List RouteBranch) : List RouteBranch :=
  jsSort (fun a b =>
    if a.score ≠ b.score then b.score - a.score
    else compareIndexes (a.routesMeta.map (fun m => m.childrenIndex))
      (b.routesMeta.map (fun m => m.childrenIndex))) branches

/-- The non-empty segments of a path or pathname. -/
def pathSegments (path : List Char) : List (List Char) :=
  (splitSlash path).filter (fun s => !s.isEmpty)

/-- One pattern segment against one pathname segment: a dynamic segment
accepts any non-empty text, a static one is compared ignoring case. -/
def segmentMatches (pattern actual : List Char) : Bool :=
  if isParam pattern then !actual.isEmpty
  else decide (pattern.map Char.toLower = actual.map Char.toLower)

/-- React Router `matchPath` on segments: the pattern has to match the leading segments
of the pathname, all of them when `end_` is set; the rest is returned. -/
def matchPath (end_ : Bool) : List (List Char) → List (List Char) → Option (List (List Char))
  | [], rest => if end_ then (if rest.isEmpty then some [] else none) else some rest
  | p :: ps, rest =>
    if isSplat p ∧ ps.isEmpty then some []
    else
      match rest with
      | [] => none
      | a :: as => if segmentMatches p a then matchPath end_ ps as else none

/-- The loop of `matchRouteBranch`: each route of the branch consumes its
relative path, the last one to the end of the pathname. -/
def matchMetas : List RouteMeta → List (List Char) → Bool
  | [], _ => false
  | [m], rest => (matchPath true (pathSegments m.relativePath) rest).isSome
  | m :: m2 :: ms, rest =>
    match matchPath false (pathSegments m.relativePath) rest with
    | none => false
    | some rest2 => matchMetas (m2 :: ms) rest2

/-- React Router `matchRouteBranch`: the elements from root to leaf when the branch
matches the pathname. -/
def matchRouteBranch (branch : RouteBranch) (pathname : List Char) : Option (List RouteElement) :=
  if matchMetas branch.routesMeta (pathSegments pathname) then
    some (branch.routesMeta.map (fun m => m.element))
  else none

/-- React Router `matchRoutes(routes, location)`: the first branch, in rank order, that
matches. The pathname is read as already percent-decoded and without empty
segments; a pathname with a doubled slash or an escaped character is outside
what this matcher models. -/
def matchRoutes (routes : List RouteObject) (pathname : String) : Option (List RouteElement) :=
  (rankRouteBranches (flattenRoutes routes)).findSome? (fun b => matchRouteBranch b pathname.data)

/-- The route table of `ProtectedRoutes`, in declaration order. -/
def ProtectedRoutes : List RouteObject :=
  [ .route (some "/doctor/chat/:patientId") (.page "DoctorChatPage") [],
    .route (some "/patient/chat") (.page "PatientChatPage") [],
    .route (some "/patient-directory") (.page "PatientDirectory") [],
    .route (some "/pharmacy-locator") (.page "PharmacyLocator") [],
    .route none (.PrivateRoute [.DOCTOR, .USER]) [],
    .route none (.PrivateRoute [.DOCTOR])
      [ .route (some "/doctor/dashboard") (.page "Dashboard") [],
        .route (some "/doctor/appointment") (.page "DoctorAppointment") [],
        .route (some "/availability") (.page "Availability") [],
        .route (some "/patient-directory") (.page "PatientDirectory") [],
        .route (some "/settings") (.page "Settings") [] ],
    .route none (.PrivateRoute [.USER])
      [ .route (some "/patient/dashboard") (.page "PatientDashboard") [],
        .route (some "/patient/book-appointment") (.page "MyAppointments") [],
        .route (some "/pharmacy-locator") (.page "PharmacyLocator") [],
        .route (some "/patient/medical-history") (.page "MedicalHistory") [],
        .route (some "/patient/profile") (.page "PatientProfile") [] ] ]


/-- The `allowedRoles` of the `PrivateRoute` guards an element chain passes
through. -/
def guardsOf (chain : List RouteElement) : List (List Roles) :=
  chain.filterMap (fun e =>
    match e with
    | .PrivateRoute roles => some roles
    | .page _ => none)

/-! ## `pages/Patient/PharmacyLocator.jsx` -/

/-- JavaScript `Math.atan2(y, x)` over the reals: the argument of the point `(x, y)`, in
`(-π, π]`, with `atan2(0, 0) = 0`. -/
noncomputable def Math.atan2 (y x : ℝ) : ℝ :=
  Complex.arg ⟨x, y⟩

/-- The function `getDistance(lat1, lon1, lat2, lon2)`, with JavaScript numbers read as
real numbers. `Real.sqrt` is 0 on negative arguments where `Math.sqrt` is
NaN; the term `a` below always lies in `[0, 1]`, so the two agree here. -/
noncomputable def getDistance (lat1 lon1 lat2 lon2 : ℝ) : ℝ :=
  let toRad := fun x : ℝ => (x * Real.pi) / 180
  let R : ℝ := 6371e3
  let φ1 := toRad lat1
  let φ2 := toRad lat2
  let Δφ := toRad (lat2 - lat1)
  let Δlambda := toRad (lon2 - lon1)
  let a :=
    Real.sin (Δφ / 2) * Real.sin (Δφ / 2) +
      Real.cos φ1 * Real.cos φ2 * Real.sin (Δlambda / 2) * Real.sin (Δlambda / 2)
  let c := 2 * Math.atan2 (Real.sqrt a) (Real.sqrt (1 - a))
  R * c

/-- The `tags` of an Overpass element that the page reads. -/
structure Tags where
  name : Option String
  housenumber : Option String
  street : Option String
  city : Option String
  deriving DecidableEq

/-- An element of the Overpass response, over the number type `N`. -/
structure OverpassElement (N : Type) where
  id : Nat
  lat : N
  lon : N
  tags : Option Tags

/-- The `userLocation` state. -/
structure UserLocation (N : Type) where
  lat : N
  lng : N

/-- An entry of the `pharmacies` state. -/
structure Pharmacy (N : Type) where
  id : Nat
  name : String
  address : String
  lat : N
  lng : N
  distance : N
  deriving DecidableEq

/-- JavaScript truthiness of an optional string: `undefined` and `""` are
falsy. -/
def truthy (v : Option String) : Option String :=
  match v with
  | some s => if s.data.isEmpty then none else some s
  | none => none

/-- Models `parts.join(", ")`. -/
def joinComma (parts : List String) : String :=
  ⟨List.intercalate [',', ' '] (parts.map String.data)⟩

/-- The object built for one element inside `elements.map(...)`, given the
distance function. -/
def toPharmacy {N : Type} (dist : N → N → N → N → N) (userLocation : UserLocation N)
    (el : OverpassElement N) : Pharmacy N :=
  let distance := dist userLocation.lat userLocation.lng el.lat el.lon
  { id := el.id
    name := (truthy (el.tags.bind (fun t => t.name))).getD "Unnamed Pharmacy"
    address := joinComma
      ([el.tags.bind (fun t => t.housenumber), el.tags.bind (fun t => t.street),
        el.tags.bind (fun t => t.city)].filterMap truthy)
    lat := el.lat
    lng := el.lon
    distance := distance }

/-- The value handed to `setPharmacies`: the elements mapped and then sorted
with the comparator `(a, b) => a.distance - b.distance`. -/
noncomputable def mapped (userLocation : UserLocation ℝ) (elements : List (OverpassElement ℝ)) :
    List (Pharmacy ℝ) :=
  jsSort (fun a b => a.distance - b.distance) (elements.map (toPharmacy getDistance userLocation))

/-- Whether `t` occurs in `s` as a run of consecutive characters. -/
def includesChars (s t : List Char) : Bool :=
  match s with
  | [] => t.isEmpty
  | c :: cs => t.isPrefixOf (c :: cs) || includesChars cs t

/-- JavaScript `s.includes(t)`. -/
def includes (s t : String) : Bool :=
  includesChars s.data t.data

/-- The `filtered` list of the page. The built-in `String.prototype.toLowerCase`
is the parameter `lower`: its Unicode case tables are not part of the page. -/
def filtered {N : Type} (lower : String → String) (pharmacies : List (Pharmacy N))
    (searchTerm : String) : List (Pharmacy N) :=
  pharmacies.filter (fun ph => includes (lower ph.name) (lower searchTerm))

/-- The Unicode simple lower-case mapping of one character, on the part of
the table this development carries: A to Z, the Latin-1 capitals U+00C0 to
U+00DE, the Greek capitals U+0386 to U+03AB and the Cyrillic capitals U+0400
to U+042F. Characters outside these ranges are returned as they are, which
is the Unicode mapping only for the characters that have no lower case. -/
def lowerChar (c : Char) : Char :=
  let n := c.toNat
  if (0x41 ≤ n ∧ n ≤ 0x5A) ∨ (0xC0 ≤ n ∧ n ≤ 0xDE ∧ n ≠ 0xD7) ∨
      (0x391 ≤ n ∧ n ≤ 0x3AB ∧ n ≠ 0x3A2) ∨ (0x410 ≤ n ∧ n ≤ 0x42F) then
    Char.ofNat (n + 32)
  else if 0x400 ≤ n ∧ n ≤ 0x40F then Char.ofNat (n + 80)
  else if n = 0x386 then Char.ofNat 0x3AC
  else if 0x388 ≤ n ∧ n ≤ 0x38A then Char.ofNat (n + 37)
  else if n = 0x38C then Char.ofNat 0x3CC
  else if n = 0x38E ∨ n = 0x38F then Char.ofNat (n + 63)
  else c

/-- The Unicode property Cased, on the same part of the table: the capitals
that `lowerChar` maps and the small letters of the same blocks. -/
def isCased (c : Char) : Bool :=
  let n := c.toNat
  decide (lowerChar c ≠ c) ||
  decide ((0x61 ≤ n ∧ n ≤ 0x7A) ∨ n = 0xAA ∨ n = 0xB5 ∨ n = 0xBA ∨
    (0xDF ≤ n ∧ n ≤ 0xFF ∧ n ≠ 0xF7) ∨ n = 0x390 ∨ (0x3AC ≤ n ∧ n ≤ 0x3CE) ∨
    (0x430 ≤ n ∧ n ≤ 0x45F))

/-- The Unicode property Case_Ignorable, on the same part of the table:
apostrophe, full stop, colon, the spacing accents of Basic Latin and Latin-1,
the soft hyphen, the middle dot, the combining marks U+0300 to U+036F and the
Greek tonos, dialytika tonos and ano teleia. -/
def isCaseIgnorable (c : Char) : Bool :=
  let n := c.toNat
  decide (n = 0x27 ∨ n = 0x2E ∨ n = 0x3A ∨ n = 0x5E ∨ n = 0x60 ∨ n = 0xA8 ∨ n = 0xAD ∨
    n = 0xAF ∨ n = 0xB4 ∨ n = 0xB7 ∨ n = 0xB8 ∨ (0x300 ≤ n ∧ n ≤ 0x36F) ∨
    n = 0x384 ∨ n = 0x385 ∨ n = 0x387)

/-- Whether the text goes on, after any case-ignorable characters, with a
cased letter. -/
def followedByCased : List Char → Bool
  | [] => false
  | c :: cs => if isCaseIgnorable c then followedByCased cs else isCased c

/-- Lower-casing from left to right. `afterCased` tells whether the last
character before this point that is not case-ignorable is a cased letter.
A capital sigma (U+03A3) in final position, that is after a cased letter and
not before one, becomes the final small sigma U+03C2 (the Final_Sigma rule of
Unicode's SpecialCasing); every other character takes its simple mapping. -/
def lowerFrom (afterCased : Bool) : List Char → List Char
  | [] => []
  | c :: cs =>
    (if c = Char.ofNat 0x3A3 ∧ afterCased = true ∧ followedByCased cs = false then
        Char.ofNat 0x3C2
      else lowerChar c) ::
      lowerFrom (if isCaseIgnorable c then afterCased else isCased c) cs

/-- JavaScript `String.prototype.toLowerCase` (the Unicode default case
conversion) on strings whose characters lie in the part of the case table
that `lowerChar` carries. It is used to evaluate `filtered` on concrete
names and terms; the general statements about `filtered` are made for every
lower-casing function. -/
def toLowerCase (s : String) : String :=
  ⟨lowerFrom false s.data⟩

/-- Two strings that differ only in letter case: same length, and at each
position two characters with the same simple lower-case mapping. -/
def differOnlyInCase (s t : String) : Prop :=
  List.Forall₂ (fun a b => lowerChar a = lowerChar b) s.data t.data

/-! # Theorems -/

/-! ## Schema validation -/

theorem pathError_nil_iff (name : String) (ok : Bool) : pathError name ok = [] ↔ ok = true := by
  cases ok <;> simp [pathError]

theorem appointment_validate_eq_ok_iff (d doc : AppointmentDoc) :
    Appointment.validate d = .ok doc ↔
      Appointment.validationErrors (Appointment.applyDefaults d) = [] ∧
        doc = Appointment.applyDefaults d := by
  unfold Appointment.validate
  dsimp only
  generalize Appointment.validationErrors (Appointment.applyDefaults d) = errs
  cases errs <;> simp [eq_comm]

theorem appointment_validate_error_iff (d : AppointmentDoc) :
    (∃ e, Appointment.validate d = .error e) ↔
      Appointment.validationErrors (Appointment.applyDefaults d) ≠ [] := by
  unfold Appointment.validate
  dsimp only
  generalize Appointment.validationErrors (Appointment.applyDefaults d) = errs
  cases errs <;> simp

theorem record_validate_eq_ok_iff (d doc : RecordDoc) :
    Record.validate d = .ok doc ↔
      Record.validationErrors (Record.applyDefaults d) = [] ∧
        doc = Record.applyDefaults d := by
  unfold Record.validate
  dsimp only
  generalize Record.validationErrors (Record.applyDefaults d) = errs
  cases errs <;> simp [eq_comm]

theorem record_validate_error_iff (d : RecordDoc) :
    (∃ e, Record.validate d = .error e) ↔
      Record.validationErrors (Record.applyDefaults d) ≠ [] := by
  unfold Record.validate
  dsimp only
  generalize Record.validationErrors (Record.applyDefaults d) = errs
  cases errs <;> simp

theorem SchemaString.checkRequired_iff (s : String) :
    SchemaString.checkRequired s = true ↔ s ≠ "" := by
  rcases s with ⟨l⟩
  cases l <;> simp [SchemaString.checkRequired, String.ext_iff]

/-- The exact condition under which an Appointment candidate validates. -/
theorem appointment_validationErrors_nil_iff (d : AppointmentDoc) :
    Appointment.validationErrors (Appointment.applyDefaults d) = [] ↔
      d.patientId ≠ none ∧ d.doctorId ≠ none ∧
      (∃ s, d.date = some s ∧ s ≠ "") ∧ (∃ s, d.time = some s ∧ s ≠ "") ∧
      (d.status = .undefined ∨ d.status = .null ∨ ∃ s, d.status = .value s ∧
        s ∈ ["confirmed", "completed", "cancelled"]) := by
  rcases d with ⟨p, q, dt, tm, st, nt⟩
  simp only [Appointment.validationErrors, Appointment.applyDefaults, List.append_eq_nil,
    pathError_nil_iff]
  cases p <;> cases q <;> cases dt <;> cases tm <;> cases st <;> cases nt <;>
    simp [doValidate, doValidateSupplied, requiredValidator, enumValidator, applyDefault,
      applyDefaultSupplied,
      SchemaType.checkRequired, SchemaString.checkRequired_iff, appointmentSchema.patientId,
      appointmentSchema.doctorId, appointmentSchema.date, appointmentSchema.time,
      appointmentSchema.status, appointmentSchema.notes, and_assoc]

/-- The exact condition under which a Record candidate validates. -/
theorem record_validationErrors_nil_iff (d : RecordDoc) :
    Record.validationErrors (Record.applyDefaults d) = [] ↔
      d.patientId ≠ none ∧ (∃ s, d.type = some s ∧ s ≠ "") ∧
      (∃ s, d.title = some s ∧ s ≠ "") ∧ (∃ s, d.fileUrl = some s ∧ s ≠ "") ∧
      d.uploadedBy ≠ none := by
  rcases d with ⟨p, ty, ti, fu, nt, da, ub, lu, isd, db, dat⟩
  simp only [Record.validationErrors, Record.applyDefaults, List.append_eq_nil,
    pathError_nil_iff]
  have hopt : ∀ {α : Type} [DecidableEq α] (c : α → Bool) (v : Option α),
      doValidate c ⟨false, none, none⟩ v = true := by
    intro α _ c v
    cases v <;> simp [doValidate, requiredValidator, enumValidator]
  cases p <;> cases ty <;> cases ti <;> cases fu <;> cases ub <;> cases isd <;>
    simp [hopt, RecordSchema.isDeleted, doValidate, requiredValidator, enumValidator, applyDefault,
      SchemaType.checkRequired, SchemaString.checkRequired_iff, RecordSchema.patientId,
      RecordSchema.type, RecordSchema.title, RecordSchema.fileUrl, RecordSchema.notes,
      RecordSchema.data, RecordSchema.uploadedBy, RecordSchema.lastUpdatedBy,
      RecordSchema.deletedBy, RecordSchema.deletedAt, SchemaTypeOptions.bare, and_assoc]

/-- No declared index of either schema is unique, so no insert is rejected
with a duplicate key. -/
theorem duplicateKeyIn_none_of_not_unique {D : Type} (get : Stored D → String → KeyValue)
    (indexes : List IndexSpec) (coll : List (Stored D)) (d : Stored D)
    (h : ∀ ix ∈ indexes, ix.unique = false) : duplicateKeyIn get indexes coll d = none := by
  unfold duplicateKeyIn
  rw [List.find?_eq_none]
  intro ix hix
  simp [h ix hix]

theorem appointment_create_of_validate (now : JsDate) (coll : List (Stored AppointmentDoc))
    (input doc : AppointmentDoc) (h : Appointment.validate input = .ok doc) :
    Appointment.create now coll input = .ok (coll ++ [⟨freshId coll, doc, now, now⟩]) := by
  unfold Appointment.create
  rw [h]
  dsimp only
  rw [duplicateKeyIn_none_of_not_unique]
  intro ix hix
  simp [appointmentSchema.indexes] at hix
  rcases hix with rfl | rfl <;> rfl

theorem record_create_of_validate (now : JsDate) (coll : List (Stored RecordDoc))
    (input doc : RecordDoc) (h : Record.validate input = .ok doc) :
    Record.create now coll input = .ok (coll ++ [⟨freshId coll, doc, now, now⟩]) := by
  unfold Record.create
  rw [h]
  dsimp only
  rw [duplicateKeyIn_none_of_not_unique]
  intro ix hix
  simp [RecordSchema.indexes] at hix
  rcases hix with rfl
  rfl

/-- C1, as stated, fails: an Appointment candidate that supplies every required
field (and no status) is rejected when the supplied `date` is the empty
string, because the `required` validator of a String path needs a non-empty
value. -/
theorem C1_counterexample_empty_date :
    (⟨some 1, some 2, some "", some "15:00", .undefined, .undefined⟩ :
      AppointmentDoc).patientId ≠ none ∧
    (⟨some 1, some 2, some "", some "15:00", .undefined, .undefined⟩ :
      AppointmentDoc).doctorId ≠ none ∧
    (⟨some 1, some 2, some "", some "15:00", .undefined, .undefined⟩ :
      AppointmentDoc).date ≠ none ∧
    (⟨some 1, some 2, some "", some "15:00", .undefined, .undefined⟩ :
      AppointmentDoc).time ≠ none ∧
    (⟨some 1, some 2, some "", some "15:00", .undefined, .undefined⟩ :
      AppointmentDoc).status = .undefined ∧
    Appointment.validate ⟨some 1, some 2, some "", some "15:00", .undefined, .undefined⟩
      = .error ["date"] := by
  refine ⟨by decide, by decide, by decide, by decide, rfl, rfl⟩

/-- C1, amended: a candidate Appointment lacking one of patientId, doctorId,
date, time fails validation, and so does a candidate Record lacking one of
patientId, type, title, fileUrl, uploadedBy; conversely a candidate that
supplies all required fields, the String ones (date, time; type, title,
fileUrl) non-empty, and for Appointment a status in the enum or none, passes
and yields the candidate with its defaults, whatever optional fields are
omitted. -/
theorem C1_required_fields :
    (∀ d : AppointmentDoc,
      (d.patientId = none ∨ d.doctorId = none ∨ d.date = none ∨ d.time = none) →
        ∃ e, Appointment.validate d = .error e) ∧
    (∀ r : RecordDoc,
      (r.patientId = none ∨ r.type = none ∨ r.title = none ∨ r.fileUrl = none ∨
        r.uploadedBy = none) → ∃ e, Record.validate r = .error e) ∧
    (∀ (d : AppointmentDoc) (p q : ObjectId) (dt tm : String),
      d.patientId = some p → d.doctorId = some q → d.date = some dt → d.time = some tm →
      dt ≠ "" → tm ≠ "" →
      (d.status = .undefined ∨ d.status = .value "confirmed" ∨
        d.status = .value "completed" ∨ d.status = .value "cancelled") →
        Appointment.validate d = .ok (Appointment.applyDefaults d)) ∧
    (∀ (r : RecordDoc) (p u : ObjectId) (ty ti fu : String),
      r.patientId = some p → r.type = some ty → r.title = some ti → r.fileUrl = some fu →
      r.uploadedBy = some u → ty ≠ "" → ti ≠ "" → fu ≠ "" →
        Record.validate r = .ok (Record.applyDefaults r)) := by
  refine ⟨?_, ?_, ?_, ?_⟩
  · intro d h
    rw [appointment_validate_error_iff, Ne, appointment_validationErrors_nil_iff]
    rintro ⟨h1, h2, ⟨s, h3, -⟩, ⟨t, h4, -⟩, -⟩
    rcases h with h | h | h | h <;> simp_all
  · intro r h
    rw [record_validate_error_iff, Ne, record_validationErrors_nil_iff]
    rintro ⟨h1, ⟨a, h2, -⟩, ⟨b, h3, -⟩, ⟨c, h4, -⟩, h5⟩
    rcases h with h | h | h | h | h <;> simp_all
  · intro d p q dt tm h1 h2 h3 h4 h5 h6 h7
    rw [appointment_validate_eq_ok_iff, appointment_validationErrors_nil_iff]
    refine ⟨⟨by simp [h1], by simp [h2], ⟨dt, h3, h5⟩, ⟨tm, h4, h6⟩, ?_⟩, rfl⟩
    rcases h7 with h | h | h | h
    · exact Or.inl h
    · exact Or.inr (Or.inr ⟨_, h, by simp⟩)
    · exact Or.inr (Or.inr ⟨_, h, by simp⟩)
    · exact Or.inr (Or.inr ⟨_, h, by simp⟩)
  · intro r p u ty ti fu h1 h2 h3 h4 h5 h6 h7 h8
    rw [record_validate_eq_ok_iff, record_validationErrors_nil_iff]
    exact ⟨⟨by simp [h1], ⟨ty, h2, h6⟩, ⟨ti, h3, h7⟩, ⟨fu, h4, h8⟩, by simp [h5]⟩, rfl⟩

/-- Witness for C1: a complete Appointment candidate passes with its defaults
filled in, one missing `time` fails, and a Record candidate missing
`uploadedBy` fails. -/
theorem C1_required_fields_witness :
    Appointment.validate
        ⟨some 1, some 2, some "2025-07-05", some "15:00", .undefined, .undefined⟩
      = .ok ⟨some 1, some 2, some "2025-07-05", some "15:00", .value "confirmed",
          .value ""⟩ ∧
    (∃ e, Appointment.validate ⟨some 1, some 2, some "2025-07-05", none, .undefined,
      .undefined⟩ = .error e) ∧
    (∃ e, Record.validate ⟨some 1, some "lab", some "CBC", some "/f.pdf", none, none, none,
      none, none, none, none⟩ = .error e) ∧
    Record.validate ⟨some 1, some "lab", some "CBC", some "/f.pdf", none, none, some 7,
      none, none, none, none⟩
      = .ok ⟨some 1, some "lab", some "CBC", some "/f.pdf", none, none, some 7,
      none, some false, none, none⟩ :=
  ⟨C1_required_fields.2.2.1 _ 1 2 "2025-07-05" "15:00" rfl rfl rfl rfl (by decide) (by decide)
      (Or.inl rfl),
   C1_required_fields.1 _ (Or.inr (Or.inr (Or.inr rfl))),
   C1_required_fields.2.1 _ (Or.inr (Or.inr (Or.inr (Or.inr rfl)))),
   C1_required_fields.2.2.2 _ 1 7 "lab" "CBC" "/f.pdf" rfl rfl rfl rfl rfl (by decide)
      (by decide) (by decide)⟩

/-- C2, as stated, fails: a candidate that supplies `status: null` passes
validation, and the document it yields, which `create` stores, has status
null, which is none of confirmed, completed and cancelled. -/
theorem C2_counterexample_null_status :
    Appointment.validate
        ⟨some 1, some 2, some "2025-07-05", some "15:00", .null, .undefined⟩
      = .ok ⟨some 1, some 2, some "2025-07-05", some "15:00", .null, .value ""⟩ ∧
    Appointment.create 0 []
        ⟨some 1, some 2, some "2025-07-05", some "15:00", .null, .undefined⟩
      = .ok [⟨1, ⟨some 1, some 2, some "2025-07-05", some "15:00", .null, .value ""⟩, 0, 0⟩] ∧
    (.null : Supplied String) ≠ .value "confirmed" ∧
    (.null : Supplied String) ≠ .value "completed" ∧
    (.null : Supplied String) ≠ .value "cancelled" := by
  refine ⟨rfl, rfl, by decide, by decide, by decide⟩

/-- C2, amended: an omitted status is stored as 'confirmed' and omitted notes
as ''; a status supplied with a string outside confirmed / completed /
cancelled fails validation; a status supplied as null is kept as null; every
document that passes validation has a status that is null or in that set,
null exactly when the candidate supplied null, and is inserted by `create`
as validated. -/
theorem C2_status_enum_or_null (d : AppointmentDoc) :
    (d.status = .undefined → (Appointment.applyDefaults d).status = .value "confirmed") ∧
    (d.notes = .undefined → (Appointment.applyDefaults d).notes = .value "") ∧
    (∀ s, d.status = .value s → s ≠ "confirmed" → s ≠ "completed" → s ≠ "cancelled" →
      ∃ e, Appointment.validate d = .error e) ∧
    (d.status = .null → (Appointment.applyDefaults d).status = .null) ∧
    (∀ doc, Appointment.validate d = .ok doc →
      doc = Appointment.applyDefaults d ∧
      (doc.status = .null ∨ doc.status = .value "confirmed" ∨
        doc.status = .value "completed" ∨ doc.status = .value "cancelled") ∧
      (doc.status = .null ↔ d.status = .null) ∧
      ∀ now coll, Appointment.create now coll d
        = .ok (coll ++ [⟨freshId coll, doc, now, now⟩])) := by
  refine ⟨?_, ?_, ?_, ?_, ?_⟩
  · intro h
    simp [Appointment.applyDefaults, applyDefaultSupplied, applyDefault, h,
      appointmentSchema.status]
  · intro h
    simp [Appointment.applyDefaults, applyDefaultSupplied, applyDefault, h,
      appointmentSchema.notes]
  · intro s hs h1 h2 h3
    rw [appointment_validate_error_iff, Ne, appointment_validationErrors_nil_iff]
    rintro ⟨-, -, -, -, h | h | ⟨t, ht, hmem⟩⟩
    · simp [hs] at h
    · simp [hs] at h
    · rw [hs] at ht
      cases ht
      simp at hmem
      rcases hmem with h | h | h <;> contradiction
  · intro h
    simp [Appointment.applyDefaults, applyDefaultSupplied, h]
  · intro doc h
    have hc := fun now coll => appointment_create_of_validate now coll d doc h
    rw [appointment_validate_eq_ok_iff, appointment_validationErrors_nil_iff] at h
    obtain ⟨⟨-, -, -, -, hst⟩, rfl⟩ := h
    refine ⟨rfl, ?_, ?_, hc⟩
    · rcases hst with h | h | ⟨t, ht, hmem⟩
      · right; left
        simp [Appointment.applyDefaults, applyDefaultSupplied, applyDefault, h,
          appointmentSchema.status]
      · left
        simp [Appointment.applyDefaults, applyDefaultSupplied, h]
      · simp at hmem
        rcases hmem with rfl | rfl | rfl <;>
          simp [Appointment.applyDefaults, applyDefaultSupplied, ht]
    · rcases hst with h | h | ⟨t, ht, -⟩
      · simp [Appointment.applyDefaults, applyDefaultSupplied, applyDefault, h,
          appointmentSchema.status]
      · simp [Appointment.applyDefaults, applyDefaultSupplied, h]
      · simp [Appointment.applyDefaults, applyDefaultSupplied, ht]

/-- Witness for C2: a candidate without status or notes is stored with
status 'confirmed' and notes '', one with status 'pending' is rejected, and
one with status null keeps it. -/
theorem C2_status_enum_or_null_witness :
    (Appointment.applyDefaults
        ⟨some 1, some 2, some "2025-07-05", some "15:00", .undefined, .undefined⟩).status
      = .value "confirmed" ∧
    (∃ e, Appointment.validate ⟨some 1, some 2, some "2025-07-05", some "15:00",
      .value "pending", .undefined⟩ = .error e) ∧
    Appointment.create 0 []
        ⟨some 1, some 2, some "2025-07-05", some "15:00", .undefined, .undefined⟩
      = .ok [⟨1, ⟨some 1, some 2, some "2025-07-05", some "15:00", .value "confirmed",
          .value ""⟩, 0, 0⟩] ∧
    (Appointment.applyDefaults
        ⟨some 1, some 2, some "2025-07-05", some "15:00", .null, .undefined⟩).status
      = .null :=
  ⟨(C2_status_enum_or_null
      ⟨some 1, some 2, some "2025-07-05", some "15:00", .undefined, .undefined⟩).1 rfl,
   (C2_status_enum_or_null
      ⟨some 1, some 2, some "2025-07-05", some "15:00", .value "pending", .undefined⟩).2.2.1
      "pending" rfl (by decide) (by decide) (by decide),
   ((C2_status_enum_or_null
      ⟨some 1, some 2, some "2025-07-05", some "15:00", .undefined, .undefined⟩).2.2.2.2
      _ rfl).2.2.2 0 [],
   (C2_status_enum_or_null
      ⟨some 1, some 2, some "2025-07-05", some "15:00", .null, .undefined⟩).2.2.2.1 rfl⟩

/-- The filter of `Record.find` is the one the caller passed: no middleware
rewrites it. -/
theorem record_find_eq_filter (coll : List (Stored RecordDoc)) (f : RecordFilter) :
    Record.find coll f = coll.filter (fun d => f.matches d) := rfl

/-- C3, as stated, fails: a query with no condition at all, issued through the
Record model on a collection holding one soft-deleted record, returns that
record. -/
theorem C3_counterexample_find_returns_deleted :
    RecordFilter.empty.isDeleted = none ∧
    (⟨5, ⟨some 1, some "lab", some "CBC", some "/f.pdf", none, none, some 7, none,
        some true, some 7, some 1000⟩, 10, 20⟩ : Stored RecordDoc) ∈
      Record.find [⟨5, ⟨some 1, some "lab", some "CBC", some "/f.pdf", none, none, some 7, none,
        some true, some 7, some 1000⟩, 10, 20⟩] RecordFilter.empty ∧
    (⟨5, ⟨some 1, some "lab", some "CBC", some "/f.pdf", none, none, some 7, none,
        some true, some 7, some 1000⟩, 10, 20⟩ : Stored RecordDoc).doc.isDeleted = some true := by
  refine ⟨rfl, by decide, rfl⟩

/-- C3, amended: a query through the Record model returns exactly the stored
documents that meet the conditions of its filter; soft-deleted records are
left out when the filter carries the condition isDeleted = false, and a
soft-deleted record that meets a filter without isDeleted condition is
returned. -/
theorem C3_find_returns_matching (coll : List (Stored RecordDoc)) (f : RecordFilter) :
    (∀ d, d ∈ Record.find coll f ↔ d ∈ coll ∧ f.matches d = true) ∧
    (f.isDeleted = some false → ∀ d ∈ Record.find coll f, d.doc.isDeleted = some false) ∧
    (f.isDeleted = none → ∀ d ∈ coll, d.doc.isDeleted = some true →
      (d ∈ Record.find coll f ↔
        d ∈ Record.find coll { f with isDeleted := some true })) := by
  refine ⟨?_, ?_, ?_⟩
  · intro d
    simp [record_find_eq_filter]
  · intro h d hd
    simp only [record_find_eq_filter, List.mem_filter] at hd
    have := hd.2
    simp only [RecordFilter.matches, h, condHolds, Bool.and_eq_true, decide_eq_true_eq] at this
    exact this.1.1.2
  · intro h d hd hdel
    simp only [record_find_eq_filter, List.mem_filter, hd, true_and]
    simp [RecordFilter.matches, h, condHolds, hdel]

/-- Witness for C3: on a collection with one soft-deleted and one live record
of the same patient, the query `{ patientId: 1, isDeleted: false }` returns
the live record, and what it returns is not deleted. -/
theorem C3_find_returns_matching_witness :
    (⟨6, ⟨some 1, some "scan", some "MRI", some "/g.pdf", none, none, some 7, none,
        some false, none, none⟩, 30, 30⟩ : Stored RecordDoc) ∈
      Record.find
        [⟨5, ⟨some 1, some "lab", some "CBC", some "/f.pdf", none, none, some 7, none,
          some true, some 7, some 1000⟩, 10, 20⟩,
         ⟨6, ⟨some 1, some "scan", some "MRI", some "/g.pdf", none, none, some 7, none,
          some false, none, none⟩, 30, 30⟩]
        ⟨none, some 1, none, none, none, none, none, none, none, some false, none, none⟩ ∧
    (⟨6, ⟨some 1, some "scan", some "MRI", some "/g.pdf", none, none, some 7, none,
        some false, none, none⟩, 30, 30⟩ : Stored RecordDoc).doc.isDeleted = some false :=
  ⟨by decide,
   (C3_find_returns_matching
      [⟨5, ⟨some 1, some "lab", some "CBC", some "/f.pdf", none, none, some 7, none,
        some true, some 7, some 1000⟩, 10, 20⟩,
       ⟨6, ⟨some 1, some "scan", some "MRI", some "/g.pdf", none, none, some 7, none,
        some false, none, none⟩, 30, 30⟩]
      ⟨none, some 1, none, none, none, none, none, none, none, some false, none, none⟩).2.1 rfl
      _ (by decide)⟩

/-- C4: a valid candidate Record is inserted by `create`; when it does not
supply the soft-delete fields the created document has isDeleted = false and
deletedBy, deletedAt unset; the created document carries patientId, type,
title, fileUrl and uploadedBy, and setting the three soft-delete fields on the
candidate leaves it valid and changes nothing else, so a document with
isDeleted = true still carries all of its required fields. -/
theorem C4_record_created_live (now : JsDate) (coll : List (Stored RecordDoc))
    (input doc : RecordDoc) (h : Record.validate input = .ok doc) :
    Record.create now coll input = .ok (coll ++ [⟨freshId coll, doc, now, now⟩]) ∧
    (input.isDeleted = none → doc.isDeleted = some false) ∧
    (input.deletedBy = none → doc.deletedBy = none) ∧
    (input.deletedAt = none → doc.deletedAt = none) ∧
    (doc.patientId ≠ none ∧ doc.type ≠ none ∧ doc.title ≠ none ∧ doc.fileUrl ≠ none ∧
      doc.uploadedBy ≠ none) ∧
    (∀ (u : ObjectId) (t : JsDate),
      Record.validate
          { input with isDeleted := some true, deletedBy := some u, deletedAt := some t }
        = .ok { doc with isDeleted := some true, deletedBy := some u, deletedAt := some t }) := by
  have hc := record_create_of_validate now coll input doc h
  rw [record_validate_eq_ok_iff, record_validationErrors_nil_iff] at h
  obtain ⟨⟨h1, ⟨a, h2, ha⟩, ⟨b, h3, hb⟩, ⟨c, h4, hc'⟩, h5⟩, rfl⟩ := h
  refine ⟨hc, ?_, ?_, ?_, ?_, ?_⟩
  · intro h
    simp [Record.applyDefaults, applyDefault, h, RecordSchema.isDeleted]
  · intro h
    simp [Record.applyDefaults, applyDefault, h, RecordSchema.deletedBy]
  · intro h
    simp [Record.applyDefaults, applyDefault, h, RecordSchema.deletedAt]
  · rcases input with ⟨p, ty, ti, fu, nt, da, ub, lu, isd, db, dat⟩
    cases p <;> cases ub <;> simp_all [Record.applyDefaults, applyDefault]
  · intro u t
    rw [record_validate_eq_ok_iff, record_validationErrors_nil_iff]
    refine ⟨⟨h1, ⟨a, h2, ha⟩, ⟨b, h3, hb⟩, ⟨c, h4, hc'⟩, h5⟩, ?_⟩
    simp [Record.applyDefaults, applyDefault]

/-- Witness for C4: a concrete upload is created live, and flagging it keeps
it valid. -/
theorem C4_record_created_live_witness :
    Record.create 100 [] ⟨some 1, some "lab", some "CBC", some "/f.pdf", none, none, some 7,
        none, none, none, none⟩
      = .ok [⟨1, ⟨some 1, some "lab", some "CBC", some "/f.pdf", none, none, some 7,
        none, some false, none, none⟩, 100, 100⟩] ∧
    Record.validate ⟨some 1, some "lab", some "CBC", some "/f.pdf", none, none, some 7,
        none, some true, some 7, some 200⟩
      = .ok ⟨some 1, some "lab", some "CBC", some "/f.pdf", none, none, some 7,
        none, some true, some 7, some 200⟩ :=
  ⟨(C4_record_created_live 100 [] ⟨some 1, some "lab", some "CBC", some "/f.pdf", none, none,
      some 7, none, none, none, none⟩ ⟨some 1, some "lab", some "CBC", some "/f.pdf", none, none,
      some 7, none, some false, none, none⟩ rfl).1,
   (C4_record_created_live 100 [] ⟨some 1, some "lab", some "CBC", some "/f.pdf", none, none,
      some 7, none, none, none, none⟩ ⟨some 1, some "lab", some "CBC", some "/f.pdf", none, none,
      some 7, none, some false, none, none⟩ rfl).2.2.2.2.2 7 200⟩

/-- C6: neither declared Appointment index is unique, and two distinct
candidates with the same doctorId, date and time and status 'confirmed' both
pass validation and are both stored, one after the other. -/
theorem C6_double_booking_not_enforced :
    (∀ ix ∈ appointmentSchema.indexes, ix.unique = false) ∧
    ∃ a b : AppointmentDoc, a ≠ b ∧ a.doctorId = b.doctorId ∧ a.date = b.date ∧
      a.time = b.time ∧
      ∃ (da db : AppointmentDoc) (c1 c2 : List (Stored AppointmentDoc)),
        Appointment.validate a = .ok da ∧ Appointment.validate b = .ok db ∧
        da.status = .value "confirmed" ∧ db.status = .value "confirmed" ∧
        da.doctorId = db.doctorId ∧ da.date = db.date ∧ da.time = db.time ∧
        Appointment.create 0 [] a = .ok c1 ∧ Appointment.create 1 c1 b = .ok c2 ∧
        c2.map (fun s => s.doc) = [da, db] := by
  refine ⟨by decide, ?_⟩
  refine ⟨⟨some 1, some 9, some "2025-07-05", some "15:00", .value "confirmed", .undefined⟩,
    ⟨some 2, some 9, some "2025-07-05", some "15:00", .undefined, .undefined⟩,
    by decide, rfl, rfl, rfl, ?_⟩
  refine ⟨⟨some 1, some 9, some "2025-07-05", some "15:00", .value "confirmed", .value ""⟩,
    ⟨some 2, some 9, some "2025-07-05", some "15:00", .value "confirmed", .value ""⟩,
    [⟨1, ⟨some 1, some 9, some "2025-07-05", some "15:00", .value "confirmed", .value ""⟩, 0, 0⟩],
    [⟨1, ⟨some 1, some 9, some "2025-07-05", some "15:00", .value "confirmed", .value ""⟩, 0, 0⟩,
     ⟨2, ⟨some 2, some 9, some "2025-07-05", some "15:00", .value "confirmed", .value ""⟩, 1, 1⟩],
    rfl, rfl, rfl, rfl, rfl, rfl, rfl, rfl, rfl, rfl⟩

/-! ## Route table -/

/-- Every path that the table declares only inside a `PrivateRoute` group
resolves to its page under the guard of that group. -/
theorem guarded_only_paths_resolve_guarded :
    matchRoutes ProtectedRoutes "/doctor/dashboard"
      = some [.PrivateRoute [.DOCTOR], .page "Dashboard"] ∧
    matchRoutes ProtectedRoutes "/doctor/appointment"
      = some [.PrivateRoute [.DOCTOR], .page "DoctorAppointment"] ∧
    matchRoutes ProtectedRoutes "/availability"
      = some [.PrivateRoute [.DOCTOR], .page "Availability"] ∧
    matchRoutes ProtectedRoutes "/settings"
      = some [.PrivateRoute [.DOCTOR], .page "Settings"] ∧
    matchRoutes ProtectedRoutes "/patient/dashboard"
      = some [.PrivateRoute [.USER], .page "PatientDashboard"] ∧
    matchRoutes ProtectedRoutes "/patient/book-appointment"
      = some [.PrivateRoute [.USER], .page "MyAppointments"] ∧
    matchRoutes ProtectedRoutes "/patient/medical-history"
      = some [.PrivateRoute [.USER], .page "MedicalHistory"] ∧
    matchRoutes ProtectedRoutes "/patient/profile"
      = some [.PrivateRoute [.USER], .page "PatientProfile"] := by
  decide

/-- The two branches for `/pharmacy-locator` have the same score and are not
siblings, so the ranking keeps the unguarded one (declared first) ahead of
the guarded one. -/
theorem pharmacy_locator_branches_in_rank_order :
    (rankRouteBranches (flattenRoutes ProtectedRoutes)).filterMap
        (fun b => if b.path = "/pharmacy-locator".data then
          some (b.score, b.routesMeta.map (fun m => m.childrenIndex)) else none)
      = [(13, [3]), (13, [6, 2])] := by
  decide

/-- C5, evaluated on the code: `/pharmacy-locator` and `/patient-directory`
resolve to the routes declared outside every `PrivateRoute`, so their pages
are rendered under no guard; the same holds for the two chat paths, which
are declared only outside the guards. -/
theorem C5_duplicate_routes_resolve_unguarded :
    matchRoutes ProtectedRoutes "/pharmacy-locator" = some [.page "PharmacyLocator"] ∧
    (matchRoutes ProtectedRoutes "/pharmacy-locator").map guardsOf = some [] ∧
    matchRoutes ProtectedRoutes "/patient-directory" = some [.page "PatientDirectory"] ∧
    (matchRoutes ProtectedRoutes "/patient-directory").map guardsOf = some [] ∧
    (matchRoutes ProtectedRoutes "/patient/chat").map guardsOf = some [] ∧
    (matchRoutes ProtectedRoutes "/doctor/chat/42").map guardsOf = some [] := by
  decide

/-! ## Search filter -/

theorem includesChars_iff_occurs (s t : List Char) : includesChars s t = true ↔ t <:+: s := by
  induction s with
  | nil => simp [includesChars, List.isEmpty_iff]
  | cons c cs ih =>
    rw [includesChars, Bool.or_eq_true, ih, List.infix_cons_iff, List.isPrefixOf_iff_prefix]

theorem includesChars_nil (s : List Char) : includesChars s [] = true := by
  rw [includesChars_iff_occurs]
  exact List.nil_infix

/-- On concrete strings `toLowerCase` lower-cases accented and Greek letters
and applies the final-sigma rule. -/
theorem toLowerCase_examples :
    toLowerCase "Pharmacie SANTÉ" = "pharmacie santé" ∧
    toLowerCase "ΑΣΑ" = "ασα" ∧ toLowerCase "ΑΣ" = "ας" ∧ toLowerCase "ασ" = "ασ" ∧
    toLowerCase "Σ" = "σ" ∧ toLowerCase "" = "" := by
  decide

/-- C9, as stated, fails: the terms "ΑΣ" and "ασ" differ only in letter case,
but the capital sigma at the end of "ΑΣ" lower-cases to the final sigma, so
"ΑΣ" becomes "ας" while "ασ" stays "ασ"; for a pharmacy named "ΑΣΑ"
(lower-cased "ασα") the term "ασ" keeps it and the term "ΑΣ" drops it. -/
theorem C9_counterexample_final_sigma :
    differOnlyInCase "ΑΣ" "ασ" ∧
    filtered toLowerCase [(⟨1, "ΑΣΑ", "", 0, 0, 120⟩ : Pharmacy Nat)] "ασ"
      = [⟨1, "ΑΣΑ", "", 0, 0, 120⟩] ∧
    filtered toLowerCase [(⟨1, "ΑΣΑ", "", 0, 0, 120⟩ : Pharmacy Nat)] "ΑΣ" = [] := by
  refine ⟨by unfold differOnlyInCase; decide, by decide, by decide⟩

/-- C9, amended: for every lower-casing function, `filtered` is the
order-preserving sublist of `pharmacies` made of the entries whose lower-cased
name contains the lower-cased search term; an empty term (whose lower-cased
form is empty) keeps the whole list, two terms with the same lower-cased form
give the same list, and a list sorted by non-decreasing distance stays
sorted. -/
theorem C9_filtered_by_search {N : Type} [LE N] (lower : String → String)
    (pharmacies : List (Pharmacy N)) (searchTerm : String) :
    filtered lower pharmacies searchTerm
      = pharmacies.filter (fun ph =>
          decide ((lower searchTerm).data <:+: (lower ph.name).data)) ∧
    (filtered lower pharmacies searchTerm).Sublist pharmacies ∧
    (∀ ph, ph ∈ filtered lower pharmacies searchTerm ↔
      ph ∈ pharmacies ∧ (lower searchTerm).data <:+: (lower ph.name).data) ∧
    (lower "" = "" → filtered lower pharmacies "" = pharmacies) ∧
    (∀ t, lower t = lower searchTerm →
      filtered lower pharmacies t = filtered lower pharmacies searchTerm) ∧
    (pharmacies.Pairwise (fun a b => a.distance ≤ b.distance) →
      (filtered lower pharmacies searchTerm).Pairwise (fun a b => a.distance ≤ b.distance)) := by
  have hpred : ∀ (t : String) (ph : Pharmacy N),
      includes (lower ph.name) (lower t)
        = decide ((lower t).data <:+: (lower ph.name).data) := by
    intro t ph
    rw [Bool.eq_iff_iff, decide_eq_true_iff]
    exact includesChars_iff_occurs _ _
  refine ⟨?_, List.filter_sublist _, ?_, ?_, ?_, ?_⟩
  · unfold filtered
    congr 1
    funext ph
    exact hpred searchTerm ph
  · intro ph
    simp [filtered, hpred]
  · intro hempty
    unfold filtered
    rw [List.filter_eq_self]
    intro ph _
    rw [hempty]
    exact includesChars_nil _
  · intro t ht
    unfold filtered
    rw [ht]
  · intro h
    exact h.sublist (List.filter_sublist _)

/-- Witness for C9: three pharmacies sorted by distance, searched with the
terms "SANTÉ" and "santé", and with the empty term. -/
theorem C9_filtered_by_search_witness :
    filtered toLowerCase [(⟨1, "Pharmacie Santé", "", 0, 0, 120⟩ : Pharmacy Nat),
        ⟨2, "Lawtons", "", 0, 0, 300⟩, ⟨3, "SANTÉ PLUS", "", 0, 0, 450⟩] "santé"
      = filtered toLowerCase [(⟨1, "Pharmacie Santé", "", 0, 0, 120⟩ : Pharmacy Nat),
        ⟨2, "Lawtons", "", 0, 0, 300⟩, ⟨3, "SANTÉ PLUS", "", 0, 0, 450⟩] "SANTÉ" ∧
    (filtered toLowerCase [(⟨1, "Pharmacie Santé", "", 0, 0, 120⟩ : Pharmacy Nat),
        ⟨2, "Lawtons", "", 0, 0, 300⟩, ⟨3, "SANTÉ PLUS", "", 0, 0, 450⟩] "SANTÉ").Pairwise
      (fun a b => a.distance ≤ b.distance) ∧
    filtered toLowerCase [(⟨1, "Pharmacie Santé", "", 0, 0, 120⟩ : Pharmacy Nat),
        ⟨2, "Lawtons", "", 0, 0, 300⟩, ⟨3, "SANTÉ PLUS", "", 0, 0, 450⟩] ""
      = [⟨1, "Pharmacie Santé", "", 0, 0, 120⟩, ⟨2, "Lawtons", "", 0, 0, 300⟩,
        ⟨3, "SANTÉ PLUS", "", 0, 0, 450⟩] ∧
    filtered toLowerCase [(⟨1, "Pharmacie Santé", "", 0, 0, 120⟩ : Pharmacy Nat),
        ⟨2, "Lawtons", "", 0, 0, 300⟩, ⟨3, "SANTÉ PLUS", "", 0, 0, 450⟩] "SANTÉ"
      = [⟨1, "Pharmacie Santé", "", 0, 0, 120⟩, ⟨3, "SANTÉ PLUS", "", 0, 0, 450⟩] :=
  ⟨(C9_filtered_by_search toLowerCase _ "SANTÉ").2.2.2.2.1 "santé" (by decide),
   (C9_filtered_by_search toLowerCase _ "SANTÉ").2.2.2.2.2 (by decide),
   (C9_filtered_by_search toLowerCase _ "SANTÉ").2.2.2.1 (by decide),
   by decide⟩

/-! ## Sorting by distance -/

/-- On a concrete list `jsSort` orders by the comparator and keeps entries
with equal keys in their original order. -/
theorem jsSort_keeps_order_of_equal_keys :
    jsSort (fun a b : Int × String => a.1 - b.1) [(2, "x"), (1, "a"), (2, "y"), (1, "b")]
      = [(1, "a"), (1, "b"), (2, "x"), (2, "y")] := by
  decide

theorem orderedInsert_perm {α N : Type} [Zero N] [LT N] [DecidableRel (fun x y : N => x < y)]
    (cmp : α → α → N) (a : α) (l : List α) : (orderedInsert cmp a l).Perm (a :: l) := by
  induction l with
  | nil => exact List.Perm.refl _
  | cons b l ih =>
    unfold orderedInsert
    split
    · exact (List.Perm.cons b ih).trans (List.Perm.swap a b l)
    · exact List.Perm.refl _

theorem jsSort_perm {α N : Type} [Zero N] [LT N] [DecidableRel (fun x y : N => x < y)]
    (cmp : α → α → N) (l : List α) : (jsSort cmp l).Perm l := by
  induction l with
  | nil => exact List.Perm.refl _
  | cons a l ih =>
    unfold jsSort
    exact (orderedInsert_perm cmp a _).trans (List.Perm.cons a ih)

theorem orderedInsert_pairwise {α N : Type} [LinearOrderedAddCommGroup N]
    (key : α → N) (a : α) (l : List α)
    (h : l.Pairwise (fun x y => key x ≤ key y)) :
    (orderedInsert (fun x y => key x - key y) a l).Pairwise (fun x y => key x ≤ key y) := by
  induction l with
  | nil => simp [orderedInsert]
  | cons b l ih =>
    rw [List.pairwise_cons] at h
    unfold orderedInsert
    split
    · rename_i hlt
      have hba : key b ≤ key a := le_of_lt (sub_pos.mp hlt)
      rw [List.pairwise_cons]
      refine ⟨?_, ih h.2⟩
      intro x hx
      rcases (List.Perm.mem_iff (orderedInsert_perm _ a l)).mp hx with hx | hx
      · simpa using hba
      · rename_i hmem
        exact h.1 x hmem
    · rename_i hnlt
      have hab : key a ≤ key b := by
        have := not_lt.mp hnlt
        exact sub_nonpos.mp this
      rw [List.pairwise_cons]
      refine ⟨?_, List.pairwise_cons.mpr h⟩
      intro x hx
      rcases List.mem_cons.mp hx with rfl | hx
      · exact hab
      · exact le_trans hab (h.1 x hx)

theorem jsSort_pairwise {α N : Type} [LinearOrderedAddCommGroup N]
    (key : α → N) (l : List α) :
    (jsSort (fun x y => key x - key y) l).Pairwise (fun x y => key x ≤ key y) := by
  induction l with
  | nil => simp [jsSort]
  | cons a l ih =>
    unfold jsSort
    exact orderedInsert_pairwise key a _ ih

/-- C7: the list handed to `setPharmacies` is a permutation of the mapped
elements, hence of the same length, each mapped entry carries the id, lat
and lon of its element and the distance `getDistance(user.lat, user.lng,
el.lat, el.lon)`, and the list is ordered by non-decreasing distance: every
entry is at most as far as each entry after it. -/
theorem C7_pharmacies_sorted_by_distance (userLocation : UserLocation ℝ)
    (elements : List (OverpassElement ℝ)) :
    (mapped userLocation elements).Perm (elements.map (toPharmacy getDistance userLocation)) ∧
    (mapped userLocation elements).length = elements.length ∧
    (∀ el : OverpassElement ℝ,
      (toPharmacy getDistance userLocation el).id = el.id ∧
      (toPharmacy getDistance userLocation el).lat = el.lat ∧
      (toPharmacy getDistance userLocation el).lng = el.lon ∧
      (toPharmacy getDistance userLocation el).distance
        = getDistance userLocation.lat userLocation.lng el.lat el.lon) ∧
    (mapped userLocation elements).Pairwise (fun a b => a.distance ≤ b.distance) := by
  refine ⟨jsSort_perm _ _, ?_, fun el => ⟨rfl, rfl, rfl, rfl⟩, ?_⟩
  · rw [mapped, (jsSort_perm _ _).length_eq, List.length_map]
  · exact jsSort_pairwise (fun ph : Pharmacy ℝ => ph.distance) _

/-! ## Haversine distance -/

/-- For real `s`, `sin (s / 2) * sin (s / 2) = (1 - cos s) / 2`. -/
theorem sin_half_mul_self (s : ℝ) :
    Real.sin (s / 2) * Real.sin (s / 2) = (1 - Real.cos s) / 2 := by
  have h := Real.sin_sq_eq_half_sub (s / 2)
  rw [show 2 * (s / 2) = s by ring] at h
  rw [← sq, h]
  ring

/-- On the quadrant of `getDistance` the two-argument arctangent of the
half-angle sine and cosine returns the half angle. -/
theorem atan2_sin_cos_half (θ : ℝ) (h0 : 0 ≤ θ) (hpi : θ ≤ Real.pi) :
    Math.atan2 (Real.sin (θ / 2)) (Real.cos (θ / 2)) = θ / 2 := by
  unfold Math.atan2
  rw [Complex.mk_eq_add_mul_I, Complex.ofReal_cos, Complex.ofReal_sin]
  apply Complex.arg_cos_add_sin_mul_I
  constructor
  · linarith [Real.pi_pos]
  · linarith [Real.pi_pos]

/-- C8: over the reals, `getDistance` is `R * θ` with `R = 6371000` and `θ`
the angle in `[0, π]` whose cosine is
`sin φ1 sin φ2 + cos φ1 cos φ2 cos Δλ`, the angles being the arguments
converted from degrees; that angle is the arccosine of this expression. -/
theorem C8_getDistance_haversine (lat1 lon1 lat2 lon2 : ℝ) :
    ∃ θ : ℝ, 0 ≤ θ ∧ θ ≤ Real.pi ∧
      Real.cos θ =
        Real.sin (lat1 * Real.pi / 180) * Real.sin (lat2 * Real.pi / 180) +
          Real.cos (lat1 * Real.pi / 180) * Real.cos (lat2 * Real.pi / 180) *
            Real.cos ((lon2 - lon1) * Real.pi / 180) ∧
      θ = Real.arccos
        (Real.sin (lat1 * Real.pi / 180) * Real.sin (lat2 * Real.pi / 180) +
          Real.cos (lat1 * Real.pi / 180) * Real.cos (lat2 * Real.pi / 180) *
            Real.cos ((lon2 - lon1) * Real.pi / 180)) ∧
      getDistance lat1 lon1 lat2 lon2 = 6371000 * θ := by
  set φ1 := lat1 * Real.pi / 180 with hφ1
  set φ2 := lat2 * Real.pi / 180 with hφ2
  set L := (lon2 - lon1) * Real.pi / 180 with hL
  set X := Real.sin φ1 * Real.sin φ2 + Real.cos φ1 * Real.cos φ2 * Real.cos L with hX
  have hD : (lat2 - lat1) * Real.pi / 180 = φ2 - φ1 := by
    rw [hφ1, hφ2]
    ring
  -- the haversine term is `(1 - X) / 2`
  have ha : Real.sin ((lat2 - lat1) * Real.pi / 180 / 2) *
        Real.sin ((lat2 - lat1) * Real.pi / 180 / 2) +
      Real.cos φ1 * Real.cos φ2 * Real.sin (L / 2) * Real.sin (L / 2) = (1 - X) / 2 := by
    rw [mul_assoc (Real.cos φ1 * Real.cos φ2), sin_half_mul_self, sin_half_mul_self, hD,
      Real.cos_sub, hX]
    ring
  -- `X` is a convex combination of `cos (φ1 - φ2)` and `- cos (φ1 + φ2)`
  have hs0 : 0 ≤ (1 - Real.cos L) / 2 := by linarith [Real.cos_le_one L]
  have hs1 : (1 - Real.cos L) / 2 ≤ 1 := by linarith [Real.neg_one_le_cos L]
  have hXc : X = (1 - (1 - Real.cos L) / 2) * Real.cos (φ1 - φ2) -
      (1 - Real.cos L) / 2 * Real.cos (φ1 + φ2) := by
    rw [Real.cos_sub, Real.cos_add, hX]
    ring
  have hXle : X ≤ 1 := by
    rw [hXc]
    nlinarith [Real.cos_le_one (φ1 - φ2), Real.neg_one_le_cos (φ1 + φ2)]
  have hXge : -1 ≤ X := by
    rw [hXc]
    nlinarith [Real.neg_one_le_cos (φ1 - φ2), Real.cos_le_one (φ1 + φ2)]
  have hcos : Real.cos (Real.arccos X) = X := Real.cos_arccos hXge hXle
  have h0 : 0 ≤ Real.arccos X := Real.arccos_nonneg X
  have hpi : Real.arccos X ≤ Real.pi := Real.arccos_le_pi X
  refine ⟨Real.arccos X, h0, hpi, hcos, rfl, ?_⟩
  have hsin : Real.sqrt ((1 - X) / 2) = Real.sin (Real.arccos X / 2) := by
    rw [Real.sin_half_eq_sqrt h0 (by linarith [Real.pi_pos]), hcos]
  have hcs : Real.sqrt (1 - (1 - X) / 2) = Real.cos (Real.arccos X / 2) := by
    rw [Real.cos_half (by linarith [Real.pi_pos]) hpi, hcos]
    congr 1
    ring
  unfold getDistance
  simp only []
  rw [ha, hsin, hcs, atan2_sin_cos_half _ h0 hpi]
  norm_num
  ring

end Medilink
